/-
Verification of the crimecity3k aggregation-and-drill-down engine.

This file gives a shallow embedding, in Lean 4, of the parts of the
crimecity3k code base that the specification's claims are about:

* `crimecity3k/api/categories.py` — the hard-coded category taxonomy used
  by the drill-down query engine (`CATEGORY_TYPES`, `get_category`).
* `crimecity3k/event_types.py` — the TOML-backed taxonomy used by the
  aggregation pipeline (`get_category`, here `event_types_get_category`).
* `crimecity3k/api/queries.py` — `is_valid_h3_cell` and `query_events`
  (scope validation, filter composition, pagination, result building).
* `crimecity3k/api/main.py` — the FastAPI parameter bounds on `page` and
  `per_page` for `GET /api/events`.
* `crimecity3k/config.py` — `CategoryMapping.from_file` (load-time
  validation of the category-mapping TOML).
* `crimecity3k/h3_processing.py` / `crimecity3k/municipality_processing.py`
  — the atomic-publish orchestration of the aggregation pipeline.

Modelling conventions:

* DuckDB's `events` table is a `List Event`; SQL `WHERE` clauses become a
  Bool-valued predicate built exactly the way `query_events` builds its
  `conditions` list, and `ORDER BY datetime DESC LIMIT ? OFFSET ?` becomes
  a deterministic sort followed by `drop`/`take`.
* The stored `datetime` column of the test data is a string (the Python
  code at `queries.py:156-185` parses it as a string), so the SQL
  comparisons `datetime >= ?` / `datetime < ?` are string comparisons
  under the default binary collation; `charsLtb` implements that order.
* Python truthiness (`if h3_cell:`, `if categories:`, `if search:`) is
  modelled by `optStrTruthy` / `optListTruthy`: `None` and empty values
  are falsy.
* The external full-text engine (`match_bm25 ... IS NOT NULL`) is an
  opaque parameter `ftsm : String → Event → Bool`.
* The filesystem touched by the pipeline is an association list from path
  to an abstract blob (`Nat`); DuckDB's `COPY TO` writing the temporary
  file and the SQL transformation are summarised by a
  `transform : Except String Nat` parameter (success blob or the raised
  cause), with `leftover` the partial temporary content a failed run may
  leave behind before the `except` block cleans it up.
-/

import Mathlib

set_option linter.unusedVariables false
set_option linter.unnecessarySeqFocus false

/-! ## String comparison under binary collation

DuckDB compares VARCHAR values code-point-wise (binary collation).  We
implement that order directly on the character list of a `String` so that
the kernel can evaluate it on concrete data. -/

/-- Code-point-wise strict comparison of character lists (binary collation). -/
def charsLtb : List Char → List Char → Bool
  | [], [] => false
  | [], _ :: _ => true
  | _ :: _, [] => false
  | a :: as, b :: bs =>
    if a.toNat < b.toNat then true
    else if b.toNat < a.toNat then false
    else charsLtb as bs

/-- `s < t` for VARCHAR values under DuckDB's default binary collation. -/
def strLtb (s t : String) : Bool := charsLtb s.data t.data

/-- `s <= t` for VARCHAR values: the negation of `t < s` (total order). -/
def strLeb (s t : String) : Bool := !(strLtb t s)

/-- A list never compares strictly below one of its own prefixes. -/
theorem charsLtb_append_self (p xs : List Char) : charsLtb (p ++ xs) p = false := by
  induction p with
  | nil => cases xs <;> rfl
  | cons c p ih =>
    simp only [List.cons_append, charsLtb, Nat.lt_irrefl, if_false]
    exact ih

/-- Lists agreeing on a common prefix compare by the first differing
character. -/
theorem charsLtb_append_lt (p : List Char) (a b : Char) (xs ys : List Char)
    (h : a.toNat < b.toNat) :
    charsLtb (p ++ a :: xs) (p ++ b :: ys) = true := by
  induction p with
  | nil => simp [charsLtb, h]
  | cons c p ih =>
    simp only [List.cons_append, charsLtb, Nat.lt_irrefl, if_false]
    exact ih

/-! ## Calendar dates

`datetime.date` values reach the SQL layer only through `.isoformat()`
(`queries.py:84,89`), producing zero-padded `YYYY-MM-DD` strings. -/

structure Date where
  year : Nat
  month : Nat
  day : Nat
deriving DecidableEq, Repr

/-- Zero-pad a number below 100 to two digits (month/day of `isoformat`). -/
def pad2 (n : Nat) : String := if n < 10 then "0" ++ toString n else toString n

/-- Zero-pad a number below 10000 to four digits (year of `isoformat`). -/
def pad4 (n : Nat) : String :=
  if n < 10 then "000" ++ toString n
  else if n < 100 then "00" ++ toString n
  else if n < 1000 then "0" ++ toString n
  else toString n

/-- `date.isoformat()`: the `YYYY-MM-DD` rendering of a date. -/
def Date.isoformat (d : Date) : String :=
  pad4 d.year ++ "-" ++ pad2 d.month ++ "-" ++ pad2 d.day

/-! ## Category taxonomy of the query engine (`api/categories.py`)

`CATEGORY_TYPES` is the hard-coded category→types table; the reverse map
`TYPE_TO_CATEGORY` is built by iterating the table and assigning
`TYPE_TO_CATEGORY[event_type] = category`, later assignments overwriting
earlier ones (Python dict semantics). -/

/-- `CATEGORY_TYPES` from `api/categories.py:20-69`, in source order. -/
def CATEGORY_TYPES : List (String × List String) :=
  [ ("traffic",
      [ "Trafikolycka, personskada", "Trafikolycka, smitning",
        "Trafikolycka, singel", "Trafikolycka, övrigt",
        "Trafikbrott, övriga", "Rattfylleri", "Olovlig körning" ]),
    ("property",
      [ "Stöld", "Stöld/inbrott", "Tillgrepp, stöld", "Inbrott",
        "Skadegörelse", "Rån", "Rån, övrigt", "Rån väpnat" ]),
    ("violence",
      [ "Misshandel", "Misshandel, grov", "Våld/hot mot tjänsteman",
        "Våldtäkt", "Våldtäkt, försök", "Mord/dråp, försök", "Mord/dråp" ]),
    ("narcotics", [ "Narkotikabrott" ]),
    ("fraud", [ "Bedrägeri", "Bedrägeri, ocker" ]),
    ("public_order",
      [ "Ordningslagen", "Fylleri", "Ofredande/förargelse", "Brand",
        "Alkohollagen", "Övriga brott mot person" ]),
    ("weapons", [ "Vapenlagen" ]) ]

/-- The sequence of dict assignments performed by the module-level loop at
`api/categories.py:72-75`: one `(event_type, category)` pair per
assignment, in iteration order. -/
def type_assignments : List (String × String) :=
  CATEGORY_TYPES.foldl (fun acc p => acc ++ p.2.map (fun t => (t, p.1))) []

/-- `TYPE_TO_CATEGORY.get(key)`: the value left in the dict after replaying
all assignments in order (the last assignment to a key wins). -/
def TYPE_TO_CATEGORY_get (key : String) : Option String :=
  type_assignments.foldl (fun acc p => if p.1 == key then some p.2 else acc) none

/-- `get_category` from `api/categories.py:78-87`:
`TYPE_TO_CATEGORY.get(event_type, "other")`. -/
def get_category (event_type : String) : String :=
  (TYPE_TO_CATEGORY_get event_type).getD "other"

/-- `get_all_categories` from `api/categories.py:90-96`: the seven named
categories in table order followed by `other`. -/
def get_all_categories : List String :=
  CATEGORY_TYPES.map Prod.fst ++ ["other"]

/-! ## Taxonomy of the aggregation pipeline (`event_types.py`) -/

/-- `EventTypeInfo` from `event_types.py:25-29`. -/
structure EventTypeInfo where
  english : String
  category : String
deriving DecidableEq, Repr

/-- Modelled from the spec: the versioned definition file
`data/event_types.toml` read by `_load_event_types` (`event_types.py:63-70`)
is not present in the sources.  Per spec §3 it is the "single source of
truth shared by both the pipeline and the query engine — a type must map
to the *same* category in both places", so its `event_types` table is
modelled as containing exactly the type→category pairs of the query
engine's `CATEGORY_TYPES` (the `english` fields, which no claim touches,
are given placeholder values). -/
def event_types_data : List (String × EventTypeInfo) :=
  type_assignments.map (fun p => (p.1, EventTypeInfo.mk p.1 p.2))

/-- `get_category` from `event_types.py:73-86`: look the label up in the
loaded TOML table and return its `category`, or `other` when absent. -/
def event_types_get_category (event_type : String) : String :=
  match List.lookup event_type event_types_data with
  | some info => info.category
  | none => "other"

/-! ## Drill-down query engine (`api/queries.py`) -/

/-- One row of the DuckDB `events` table built by `init_database`
(`api/main.py:67-74`): the parquet columns plus the computed `h3_cell`.
String columns are total (the Python `or ""` fallbacks only matter for
SQL NULLs, which no claim exercises). -/
structure Event where
  event_id : String
  datetime : String
  type : String
  summary : String
  html_body : String
  url : String
  location_name : String
  latitude : Int
  longitude : Int
  h3_cell : String
deriving DecidableEq, Repr

/-- Python truthiness of an optional string parameter: `None` and `""`
are falsy. -/
def optStrTruthy : Option String → Bool
  | some s => !(s == "")
  | none => false

/-- Python truthiness of an optional list parameter: `None` and `[]` are
falsy. -/
def optListTruthy : Option (List String) → Bool
  | some l => !l.isEmpty
  | none => false

/-- Approximation of `str.strip()` whitespace (space, tab, newline,
carriage return); only emptiness of the result is ever consulted. -/
def isPySpace (c : Char) : Bool :=
  c.toNat == 32 || c.toNat == 9 || c.toNat == 10 || c.toNat == 13

/-- `search.strip()` from `queries.py:112`. -/
def pyStrip (s : String) : String :=
  String.mk (((s.data.dropWhile isPySpace).reverse.dropWhile isPySpace).reverse)

/-- `search.replace("'", "''")` from `queries.py:114`. -/
def escape_sq_chars : List Char → List Char
  | [] => []
  | c :: cs =>
    if c.toNat == 39 then c :: c :: escape_sq_chars cs else c :: escape_sq_chars cs

/-- The escaped search string interpolated into the FTS condition. -/
def escape_sq (s : String) : String := String.mk (escape_sq_chars s.data)

/-- ASCII lower-casing, modelling the SQL `LOWER(...)` on the scope
comparison (`queries.py:79`); no claim depends on non-ASCII folding. -/
def lowerStr (s : String) : String := String.mk (s.data.map Char.toLower)

/-- `H3_CELL_PATTERN.match` (`queries.py:16,28`): Python's `re` matches
`^[0-9a-fA-F]{15}$` against 15 hex characters, and — because `$` also
matches just before a newline that ends the string — against 15 hex
characters followed by a single trailing `"\n"`. -/
def isHexChar (c : Char) : Bool :=
  (48 ≤ c.toNat && c.toNat ≤ 57) ||
  (97 ≤ c.toNat && c.toNat ≤ 102) ||
  (65 ≤ c.toNat && c.toNat ≤ 70)

/-- `is_valid_h3_cell` from `queries.py:19-28`. -/
def is_valid_h3_cell (s : String) : Bool :=
  (s.data.length == 15 && s.data.all isHexChar) ||
  (s.data.length == 16 && (s.data.take 15).all isHexChar &&
    (s.data.getLast? == some (Char.ofNat 10)))

/-- The scope condition appended at `queries.py:73-80`: `h3_cell = ?` for
a (truthy) cell scope, else `LOWER(location_name) = LOWER(?)`. -/
def scope_cond (h3_cell location_name : Option String) (e : Event) : Bool :=
  if optStrTruthy h3_cell then e.h3_cell == h3_cell.getD ""
  else if optStrTruthy location_name then
    lowerStr e.location_name == lowerStr (location_name.getD "")
  else true

/-- `datetime >= start_date.isoformat()` (`queries.py:82-84`). -/
def start_cond (start_date : Option Date) (e : Event) : Bool :=
  match start_date with
  | some d => strLeb d.isoformat e.datetime
  | none => true

/-- `datetime < end_date.isoformat() + "T23:59:59"` (`queries.py:86-89`). -/
def end_cond (end_date : Option Date) (e : Event) : Bool :=
  match end_date with
  | some d => strLtb e.datetime (d.isoformat ++ "T23:59:59")
  | none => true

/-- The union of `CATEGORY_TYPES[cat]` over the requested categories
(`queries.py:92-99`); names without an entry — including `"other"` —
contribute nothing. -/
def allowed_types (cats : List String) : List String :=
  cats.foldl (fun acc c => acc ++ ((List.lookup c CATEGORY_TYPES).getD [])) []

/-- The category condition of `queries.py:91-103`: only added when the
parameter is truthy and the resolved type set is non-empty. -/
def cat_cond (categories : Option (List String)) (e : Event) : Bool :=
  if optListTruthy categories then
    let allowed := allowed_types (categories.getD [])
    if allowed.isEmpty then true else allowed.contains e.type
  else true

/-- The explicit type condition of `queries.py:105-108`. -/
def type_cond (types : Option (List String)) (e : Event) : Bool :=
  if optListTruthy types then (types.getD []).contains e.type else true

/-- The FTS condition of `queries.py:110-115`: added only when the search
parameter and its stripped form are truthy; `ftsm` is the external
engine's `match_bm25 ... IS NOT NULL` test on the escaped query. -/
def fts_cond (ftsm : String → Event → Bool) (search : Option String) (e : Event) : Bool :=
  match search with
  | some s => if !(s == "") && !(pyStrip s == "") then ftsm (escape_sq s) e else true
  | none => true

/-- The full `WHERE` clause of both the count and the select query:
the conditions of `queries.py:73-115` joined with `AND`. -/
def where_keep (ftsm : String → Event → Bool) (h3_cell location_name : Option String)
    (start_date end_date : Option Date) (categories types : Option (List String))
    (search : Option String) (e : Event) : Bool :=
  scope_cond h3_cell location_name e &&
  start_cond start_date e && end_cond end_date e &&
  cat_cond categories e && type_cond types e &&
  fts_cond ftsm search e

/-- One element of the response's `events` list (`queries.py:187-200`).
The lossy display re-parsing of the timestamp string
(`queries.py:156-185`) is not modelled: `event_datetime` carries the
stored string, which no claim inspects further. -/
structure EventResponse where
  event_id : String
  event_datetime : String
  type : String
  category : String
  summary : String
  html_body : String
  police_url : String
  location_name : String
  latitude : Int
  longitude : Int
deriving DecidableEq, Repr

/-- Row-to-response conversion from `queries.py:187-200`. -/
def toResponse (e : Event) : EventResponse :=
  { event_id := e.event_id
    event_datetime := e.datetime
    type := e.type
    category := get_category e.type
    summary := e.summary
    html_body := e.html_body
    police_url := if !(e.url == "") then "https://polisen.se" ++ e.url else ""
    location_name := e.location_name
    latitude := e.latitude
    longitude := e.longitude }

/-- The response envelope of `query_events` (`queries.py:202-207`). -/
structure QueryResult where
  total : Nat
  page : Nat
  per_page : Nat
  events : List EventResponse
deriving DecidableEq, Repr

/-- The `ValueError`s raised by `query_events` (`queries.py:63-75`). -/
inductive QueryError where
  | bothScopes
  | noScope
  | invalidH3 (cell : String)
deriving DecidableEq, Repr

/-- `ORDER BY datetime DESC`: `a` may precede `b` when `a.datetime` is not
strictly below `b.datetime` in the binary collation. -/
def datetime_desc (a b : Event) : Prop := strLtb a.datetime b.datetime = false

instance : DecidableRel datetime_desc := fun a b => instDecidableEqBool _ _

/-- The count query, ordering, and `LIMIT ? OFFSET ?` pagination of
`queries.py:119-149` applied to the rows passing the `WHERE` clause:
`total` counts all matching rows, the page slice starts at
`(page - 1) * per_page`. -/
def run_query (keep : Event → Bool) (db : List Event) (page per_page : Nat) : QueryResult :=
  let matching := db.filter keep
  let sorted := List.insertionSort datetime_desc matching
  { total := matching.length
    page := page
    per_page := per_page
    events := ((sorted.drop ((page - 1) * per_page)).take per_page).map toResponse }

/-- `query_events` from `queries.py:31-207`: scope validation, H3 format
validation, then the filtered, sorted, paginated query. -/
def query_events (ftsm : String → Event → Bool) (db : List Event)
    (h3_cell location_name : Option String)
    (start_date end_date : Option Date)
    (categories types : Option (List String))
    (search : Option String)
    (page per_page : Nat) : Except QueryError QueryResult :=
  if optStrTruthy h3_cell && optStrTruthy location_name then .error .bothScopes
  else if !optStrTruthy h3_cell && !optStrTruthy location_name then .error .noScope
  else if optStrTruthy h3_cell && !is_valid_h3_cell (h3_cell.getD "") then
    .error (.invalidH3 (h3_cell.getD ""))
  else
    .ok (run_query
      (where_keep ftsm h3_cell location_name start_date end_date categories types search)
      db page per_page)

/-- The FastAPI bound `Query(ge=1)` on `page` (`api/main.py:177`). -/
def get_events_page_ok (page : Nat) : Bool := 1 ≤ page

/-- The FastAPI bound `Query(ge=1, le=100)` on `per_page`
(`api/main.py:178`); out-of-bound values are rejected at the API boundary
with a validation error before `query_events` runs. -/
def get_events_per_page_ok (per_page : Nat) : Bool := 1 ≤ per_page && per_page ≤ 100

/-! ## Category-mapping configuration (`config.py:72-117`)

`CategoryMapping.from_file` reads a TOML file, parses it, and validates it
through Pydantic: `categories` must be a table of entries each carrying a
string `name` and a list-of-strings `types`.  Parsed TOML values are
modelled by the `Toml` tree; the file lookup and the TOML parse are
summarised by a `fileExists` flag and a pre-parsed
`Except String (List (String × Toml))` (the parse error message or the
top-level table). -/

inductive Toml where
  | str (s : String)
  | num (n : Int)
  | arr (xs : List Toml)
  | table (kvs : List (String × Toml))

/-- `Category` from `config.py:72-77`. -/
structure Category where
  name : String
  types : List String
deriving DecidableEq, Repr

/-- `CategoryMapping` from `config.py:79-82`. -/
structure CategoryMapping where
  categories : List (String × Category)
deriving DecidableEq, Repr

/-- `CategoryMappingError` from `config.py:114-117`, split by the three
raise sites of `from_file`. -/
inductive CMError where
  | notFound
  | invalidToml (msg : String)
  | invalidStructure
deriving DecidableEq, Repr

/-- Pydantic validation of one `Category` value: a table with a string
`name` and a list-of-strings `types` (extra keys are ignored). -/
def parse_category : Toml → Option Category
  | .table kvs =>
    match List.lookup "name" kvs, List.lookup "types" kvs with
    | some (.str n), some (.arr xs) =>
      (xs.foldr (fun x acc =>
        match x, acc with
        | .str s, some ts => some (s :: ts)
        | _, _ => none) (some [])).map (fun ts => Category.mk n ts)
    | _, _ => none
  | _ => none

/-- Pydantic validation of the `categories` table: every entry must parse
as a `Category`. -/
def parse_categories : List (String × Toml) → Option (List (String × Category))
  | [] => some []
  | (k, v) :: rest =>
    match parse_category v, parse_categories rest with
    | some c, some cs => some ((k, c) :: cs)
    | _, _ => none

/-- `CategoryMapping(**data)` (`config.py:108-111`): the parsed TOML must
carry a `categories` table whose entries all validate; any other shape is
a `CategoryMappingError`. -/
def CategoryMapping_from_toml (data : List (String × Toml)) : Except CMError CategoryMapping :=
  match List.lookup "categories" data with
  | some (.table kvs) =>
    match parse_categories kvs with
    | some cats => .ok (CategoryMapping.mk cats)
    | none => .error .invalidStructure
  | _ => .error .invalidStructure

/-- `CategoryMapping.from_file` (`config.py:84-111`): missing file, TOML
syntax error, and Pydantic validation are the three failure stages. -/
def CategoryMapping_from_file (fileExists : Bool)
    (parsed : Except String (List (String × Toml))) : Except CMError CategoryMapping :=
  if !fileExists then .error .notFound
  else
    match parsed with
    | .error e => .error (.invalidToml e)
    | .ok data => CategoryMapping_from_toml data

/-! ## Aggregation pipeline orchestration
(`h3_processing.py:113-217`, `municipality_processing.py:20-117`)

Both aggregation entry points follow the same shape: existence checks on
the input files, a temporary output path obtained with
`output_file.with_suffix(".tmp")`, the SQL transformation writing that
temporary file, an atomic rename on success, and on any transformation
failure removal of the temporary file plus a `RuntimeError` wrapping the
original cause. -/

/-- A filesystem: association list from path to abstract file content. -/
abbrev FS := List (String × Nat)

/-- File lookup. -/
def fsGet (fs : FS) (p : String) : Option Nat := List.lookup p fs

/-- Write (create or overwrite) a file. -/
def fsSet (fs : FS) (p : String) (v : Nat) : FS :=
  (p, v) :: fs.filter (fun kv => !(kv.1 == p))

/-- Remove a file. -/
def fsDel (fs : FS) (p : String) : FS := fs.filter (fun kv => !(kv.1 == p))

/-- `pathlib.Path.with_suffix`: replace the extension of the final path
component (or append when it has none). -/
def with_suffix (path suffix : String) : String :=
  let comps := path.data
  let rev := comps.reverse
  let afterDot := rev.takeWhile (fun c => !(c.toNat == 46) && !(c.toNat == 47))
  match rev.drop afterDot.length with
  | c :: _ =>
    if c.toNat == 46 then
      String.mk ((rev.drop (afterDot.length + 1)).reverse) ++ suffix
    else path ++ suffix
  | [] => path ++ suffix

/-- The exceptions surfaced by the aggregation entry points: the
`FileNotFoundError`s raised before any write, and the `RuntimeError`
wrapping the original transformation cause. -/
inductive AggError where
  | fileNotFound (msg : String)
  | runtimeError (msg : String)
deriving DecidableEq, Repr

deriving instance DecidableEq for Except

/-- Outcome of one pipeline run: the raised error (if any) and the final
filesystem. -/
structure AggOutcome where
  result : Except AggError Unit
  fs : FS
deriving DecidableEq, Repr

/-- Shared body of both aggregation entry points, parametrised by the
wrapping message of the `RuntimeError`.  `transform` is the outcome of the
`qck` SQL run (the blob written to the temporary file, or the raised
cause); `leftover` is the partial temporary content a failing run may have
produced before the exception. -/
def run_pipeline (wrapMsg : String) (fs : FS) (output_file : String)
    (transform : Except String Nat) (leftover : Option Nat) : AggOutcome :=
  let temp_file := with_suffix output_file ".tmp"
  match transform with
  | .ok blob =>
    let fs1 := fsSet fs temp_file blob
    let fs2 := fsSet (fsDel fs1 temp_file) output_file blob
    { result := .ok (), fs := fs2 }
  | .error cause =>
    let fs1 := match leftover with
      | some b => fsSet fs temp_file b
      | none => fs
    let fs2 := if (fsGet fs1 temp_file).isSome then fsDel fs1 temp_file else fs1
    { result := .error (.runtimeError (wrapMsg ++ cause)), fs := fs2 }

/-- `aggregate_events_to_h3` (`h3_processing.py:113-217`): input existence
checks, then the transform with atomic publish and failure cleanup. -/
def aggregate_events_to_h3 (fs : FS) (events_file population_file output_file : String)
    (transform : Except String Nat) (leftover : Option Nat) : AggOutcome :=
  if (fsGet fs events_file).isNone then
    { result := .error (.fileNotFound ("Events file not found: " ++ events_file)), fs := fs }
  else if (fsGet fs population_file).isNone then
    { result := .error (.fileNotFound ("Population file not found: " ++ population_file)),
      fs := fs }
  else
    run_pipeline "Failed to aggregate events to H3: " fs output_file transform leftover

/-- `aggregate_events_to_municipalities`
(`municipality_processing.py:20-117`): same structure with its own
messages. -/
def aggregate_events_to_municipalities (fs : FS)
    (events_file population_file output_file : String)
    (transform : Except String Nat) (leftover : Option Nat) : AggOutcome :=
  if (fsGet fs events_file).isNone then
    { result := .error (.fileNotFound ("Events file not found: " ++ events_file)), fs := fs }
  else if (fsGet fs population_file).isNone then
    { result := .error (.fileNotFound ("Population file not found: " ++ population_file)),
      fs := fs }
  else
    run_pipeline "Failed to aggregate events to municipalities: " fs output_file
      transform leftover

/-! ## Helper lemmas -/

/-- Replaying dict assignments can only produce a stored pair or the
initial accumulator. -/
theorem foldl_get_mem (l : List (String × String)) (k c : String) :
    ∀ acc : Option String,
      l.foldl (fun acc p => if p.1 == k then some p.2 else acc) acc = some c →
      (k, c) ∈ l ∨ acc = some c := by
  induction l with
  | nil => intro acc h; exact Or.inr h
  | cons p l ih =>
    obtain ⟨a, b⟩ := p
    intro acc h
    rw [List.foldl_cons] at h
    rcases ih _ h with hm | hacc
    · exact Or.inl (List.mem_cons_of_mem _ hm)
    · dsimp only at hacc
      by_cases hk : (a == k) = true
      · rw [if_pos hk] at hacc
        obtain rfl : b = c := Option.some.inj hacc
        obtain rfl : a = k := eq_of_beq hk
        exact Or.inl (List.mem_cons_self _ _)
      · rw [if_neg hk] at hacc
        exact Or.inr hacc

/-- If no stored key matches, replaying the assignments leaves the
accumulator unchanged. -/
theorem foldl_get_of_not_mem (l : List (String × String)) (k : String)
    (h : ∀ p ∈ l, (p.1 == k) = false) :
    ∀ acc : Option String,
      l.foldl (fun acc p => if p.1 == k then some p.2 else acc) acc = acc := by
  induction l with
  | nil => intro acc; rfl
  | cons p l ih =>
    intro acc
    have hp := h p (List.mem_cons_self _ _)
    rw [List.foldl_cons]
    rw [if_neg (by simp [hp])]
    exact ih (fun q hq => h q (List.mem_cons_of_mem _ hq)) acc

/-- With duplicate-free keys, last-write-wins dict replay coincides with
first-match association-list lookup. -/
theorem foldl_get_eq_lookup (l : List (String × String)) (k : String)
    (hnd : (l.map Prod.fst).Nodup) :
    l.foldl (fun acc p => if p.1 == k then some p.2 else acc) none = List.lookup k l := by
  induction l with
  | nil => rfl
  | cons p l ih =>
    obtain ⟨a, b⟩ := p
    rw [List.foldl_cons]
    rw [List.map_cons, List.nodup_cons] at hnd
    by_cases hk : (a == k) = true
    · obtain rfl : a = k := eq_of_beq hk
      rw [if_pos hk]
      have hnd1 : a ∉ List.map Prod.fst l := hnd.1
      have hnone : ∀ q ∈ l, (q.1 == a) = false := by
        intro q hq
        have hne : q.1 ≠ a := by
          intro he
          exact hnd1 (he ▸ List.mem_map_of_mem Prod.fst hq)
        exact beq_eq_false_iff_ne.mpr hne
      rw [foldl_get_of_not_mem l a hnone]
      simp [List.lookup]
    · rw [if_neg hk]
      rw [ih hnd.2]
      have hne : a ≠ k := by
        intro he
        exact hk (by rw [he]; exact beq_self_eq_true k)
      have hka : (k == a) = false := beq_eq_false_iff_ne.mpr (Ne.symm hne)
      simp [List.lookup, hka]

/-- The `category` read back from the modelled TOML table equals direct
association-list lookup in the underlying pair list. -/
theorem et_lookup_category (l : List (String × String)) (k : String) :
    (match List.lookup k (l.map (fun p => (p.1, EventTypeInfo.mk p.1 p.2))) with
      | some info => info.category
      | none => "other")
    = (List.lookup k l).getD "other" := by
  induction l with
  | nil => rfl
  | cons p l ih =>
    obtain ⟨a, b⟩ := p
    by_cases hk : (k == a) = true
    · simp [List.lookup, hk]
    · have hka : (k == a) = false := by
        rcases Bool.eq_false_or_eq_true (k == a) with h0 | h1
        · exact absurd h0 hk
        · exact h1
      simp only [List.map_cons, List.lookup, hka]
      exact ih

/-- Inversion for successful queries: a non-error result is exactly the
filtered, sorted, paginated run over the composed `WHERE` predicate. -/
theorem query_events_ok_inv (ftsm : String → Event → Bool) (db : List Event)
    (h3_cell location_name : Option String) (start_date end_date : Option Date)
    (categories types : Option (List String)) (search : Option String)
    (page per_page : Nat) (r : QueryResult)
    (h : query_events ftsm db h3_cell location_name start_date end_date
      categories types search page per_page = .ok r) :
    r = run_query
      (where_keep ftsm h3_cell location_name start_date end_date categories types search)
      db page per_page := by
  unfold query_events at h
  split at h
  · simp at h
  · split at h
    · simp at h
    · split at h
      · simp at h
      · exact (Except.ok.inj h).symm

/-- Category names without a `CATEGORY_TYPES` entry contribute no allowed
types. -/
theorem allowed_types_cons (c : String) (cats : List String) :
    allowed_types (c :: cats)
      = ((List.lookup c CATEGORY_TYPES).getD []) ++ allowed_types cats := by
  unfold allowed_types
  rw [List.foldl_cons]
  have haux : ∀ (l : List String) (acc : List String),
      l.foldl (fun acc c => acc ++ ((List.lookup c CATEGORY_TYPES).getD [])) acc
        = acc ++ l.foldl (fun acc c => acc ++ ((List.lookup c CATEGORY_TYPES).getD [])) [] := by
    intro l
    induction l with
    | nil => intro acc; simp
    | cons d l ih =>
      intro acc
      rw [List.foldl_cons, List.foldl_cons, ih, List.nil_append,
        ih ((List.lookup d CATEGORY_TYPES).getD []), List.append_assoc]
  rw [haux, List.nil_append]

/-- A categories filter naming only unknown categories resolves to the
empty allowed-type set. -/
theorem allowed_types_eq_nil (cats : List String)
    (h : ∀ c ∈ cats, List.lookup c CATEGORY_TYPES = none) :
    allowed_types cats = [] := by
  induction cats with
  | nil => rfl
  | cons c cats ih =>
    rw [allowed_types_cons, h c (List.mem_cons_self _ _)]
    exact ih (fun d hd => h d (List.mem_cons_of_mem _ hd))

/-- Writing a file makes it readable with the written content. -/
theorem fsGet_fsSet_self (fs : FS) (p : String) (v : Nat) :
    fsGet (fsSet fs p v) p = some v := by
  simp [fsGet, fsSet, List.lookup]

/-- Looking up a key that a key-filter removed yields nothing. -/
theorem lookup_filter_out (fs : FS) (p : String) :
    List.lookup p (fs.filter (fun kv => !(kv.1 == p))) = none := by
  induction fs with
  | nil => rfl
  | cons kv fs ih =>
    obtain ⟨a, b⟩ := kv
    by_cases hk : (a == p) = true
    · simp only [List.filter_cons, hk]
      simpa using ih
    · have hk' : (a == p) = false := by
        rcases Bool.eq_false_or_eq_true (a == p) with h0 | h1
        · exact absurd h0 hk
        · exact h1
      have hpa : (p == a) = false := by
        refine beq_eq_false_iff_ne.mpr ?_
        intro he
        exact (beq_eq_false_iff_ne.mp hk') he.symm
      simp only [List.filter_cons, hk', Bool.not_false, if_true]
      simp only [List.lookup, hpa]
      exact ih

/-- Key-filtering for a different key does not change lookups. -/
theorem lookup_filter_other (fs : FS) (p q : String) (h : q ≠ p) :
    List.lookup q (fs.filter (fun kv => !(kv.1 == p))) = List.lookup q fs := by
  induction fs with
  | nil => rfl
  | cons kv fs ih =>
    obtain ⟨a, b⟩ := kv
    by_cases hk : (a == p) = true
    · obtain rfl : a = p := eq_of_beq hk
      have hqa : (q == a) = false := beq_eq_false_iff_ne.mpr h
      simp only [List.filter_cons, hk]
      simp only [List.lookup, hqa]
      simpa using ih
    · have hk' : (a == p) = false := by
        rcases Bool.eq_false_or_eq_true (a == p) with h0 | h1
        · exact absurd h0 hk
        · exact h1
      simp only [List.filter_cons, hk', Bool.not_false, if_true]
      by_cases hq : (q == a) = true
      · simp [List.lookup, hq]
      · have hq' : (q == a) = false := by
          rcases Bool.eq_false_or_eq_true (q == a) with h0 | h1
          · exact absurd h0 hq
          · exact h1
        simp only [List.lookup, hq']
        exact ih

/-- Deleting a file removes it. -/
theorem fsGet_fsDel_self (fs : FS) (p : String) : fsGet (fsDel fs p) p = none :=
  lookup_filter_out fs p

/-- Deleting a file leaves other files readable unchanged. -/
theorem fsGet_fsDel_other (fs : FS) (p q : String) (h : q ≠ p) :
    fsGet (fsDel fs p) q = fsGet fs q :=
  lookup_filter_other fs p q h

/-- Writing a file leaves other files readable unchanged. -/
theorem fsGet_fsSet_other (fs : FS) (p q : String) (v : Nat) (h : q ≠ p) :
    fsGet (fsSet fs p v) q = fsGet fs q := by
  have hqp : (q == p) = false := beq_eq_false_iff_ne.mpr h
  simp only [fsGet, fsSet, List.lookup, hqp]
  exact lookup_filter_other fs p q h

/-- Any timestamp string beginning with a date's ISO rendering satisfies
the inclusive start bound for that date. -/
theorem start_cond_of_same_date (d : Date) (rest : String) (e : Event)
    (h : e.datetime = d.isoformat ++ rest) :
    start_cond (some d) e = true := by
  simp only [start_cond, strLeb, strLtb, h, String.data_append]
  rw [charsLtb_append_self]
  rfl

/-- Any timestamp of the space-separated stored format whose date equals
the end date satisfies the end bound `datetime < isoformat + "T23:59:59"`
(a space compares below `T`), so such events pass the end-date filter. -/
theorem end_cond_of_same_date (d : Date) (rest : String) (e : Event)
    (h : e.datetime = d.isoformat ++ " " ++ rest) :
    end_cond (some d) e = true := by
  simp only [end_cond, strLtb, h, String.data_append]
  rw [List.append_assoc, List.singleton_append]
  show charsLtb (d.isoformat.data ++ ' ' :: rest.data)
    (d.isoformat.data ++ 'T' :: ['2', '3', ':', '5', '9', ':', '5', '9']) = true
  exact charsLtb_append_lt d.isoformat.data ' ' 'T' rest.data
    ['2', '3', ':', '5', '9', ':', '5', '9'] (by decide)

/-! ## Claim C2 -/

/-- C2: classification by `get_category` is total (a Lean function on all
of `String`), deterministic (a function), and an exact case- and
diacritic-sensitive match against the configured mapping: it always
returns one of the 8 category names; it returns `other` exactly when the
label has no entry in the reverse mapping; a stored result always comes
from a stored `(type, category)` pair; and near-miss spellings of mapped
labels (case change, dropped diacritic) fall to `other`. -/
theorem get_category_total_exact_match :
    (∀ t : String, get_category t ∈ get_all_categories) ∧
    (∀ t : String, (get_category t = "other" ↔ TYPE_TO_CATEGORY_get t = none)) ∧
    (∀ t c : String, TYPE_TO_CATEGORY_get t = some c → (t, c) ∈ type_assignments) ∧
    get_category "Stöld" = "property" ∧
    get_category "stöld" = "other" ∧
    get_category "Stold" = "other" ∧
    get_category "Rattfylleri" = "traffic" ∧
    get_category "rattfylleri" = "other" := by
  have hmem : ∀ p ∈ type_assignments, p.2 ∈ CATEGORY_TYPES.map Prod.fst ∧ p.2 ≠ "other" := by
    decide
  have hsome : ∀ t c : String, TYPE_TO_CATEGORY_get t = some c → (t, c) ∈ type_assignments := by
    intro t c h
    unfold TYPE_TO_CATEGORY_get at h
    rcases foldl_get_mem type_assignments t c none h with hm | habs
    · exact hm
    · exact absurd habs (by simp)
  refine ⟨?_, ?_, hsome, by decide, by decide, by decide, by decide, by decide⟩
  · intro t
    unfold get_category
    cases h : TYPE_TO_CATEGORY_get t with
    | none =>
      show "other" ∈ get_all_categories
      decide
    | some c =>
      show c ∈ get_all_categories
      exact List.mem_append_left _ (hmem _ (hsome t c h)).1
  · intro t
    constructor
    · intro h
      cases hg : TYPE_TO_CATEGORY_get t with
      | none => rfl
      | some c =>
        unfold get_category at h
        rw [hg] at h
        exact absurd (h ▸ rfl) (hmem _ (hsome t c hg)).2
    · intro h
      unfold get_category
      rw [h]
      rfl

/-! ## Claim C3 -/

/-- C3: for every type label, the category assigned by the aggregation
pipeline's taxonomy (`event_types.get_category` over the modelled
`event_types.toml` table) equals the category assigned by the drill-down
query engine's taxonomy (`api.categories.get_category` over the
`CATEGORY_TYPES`-derived reverse map). -/
theorem pipeline_and_query_taxonomies_agree :
    ∀ t : String, event_types_get_category t = get_category t := by
  intro t
  have hnd : (type_assignments.map Prod.fst).Nodup := by decide
  unfold event_types_get_category event_types_data
  rw [et_lookup_category]
  unfold get_category TYPE_TO_CATEGORY_get
  rw [foldl_get_eq_lookup _ _ hnd]

/-! ## Concrete test data for witnesses and counterexamples -/

/-- A trivially false full-text matcher (unused whenever `search` is
absent). -/
def fts0 : String → Event → Bool := fun _ _ => false

/-- A well-formed H3 cell id (15 hex characters). -/
def cellA : String := "0123456789abcde"

/-- Concrete event constructor for test databases. -/
def mkEv (i : Nat) (dt : String) (cell : String) : Event :=
  { event_id := "e" ++ toString i
    datetime := dt
    type := "Stöld"
    summary := "s"
    html_body := ""
    url := "/u"
    location_name := "Lund"
    latitude := 55
    longitude := 13
    h3_cell := cell }

/-- A database holding exactly two events in `cellA`. -/
def db2 : List Event :=
  [ mkEv 1 "2024-01-15 10:00:00" cellA, mkEv 2 "2024-01-16 11:00:00" cellA ]

/-! ## Claim C1 -/

/-- C1 (failing input): a scope holding exactly two matching events — a
true matching count strictly between zero and the default privacy
threshold 3.  `query_events` reports `total = 2` but also returns both
events in `events`; no privacy-threshold suppression exists anywhere in
`query_events` (`api/queries.py:31-207`) or `get_events`
(`api/main.py:163-230`), although the repository's own test
`test_query_events_cell_under_threshold_returns_limited_response`
(`tests/test_api_events.py:303-327`) asserts `events == []` for exactly
this situation. -/
theorem privacy_threshold_not_enforced :
    (query_events fts0 db2 (some cellA) none none none none none none 1 50).map
      (fun r => (r.total, r.events.map (fun e => e.event_id)))
      = .ok (2, ["e2", "e1"]) ∧ 0 < 2 ∧ 2 < 3 := by
  refine ⟨by decide, by decide, by decide⟩

/-! ## Claim C6 -/

/-- C6 (counterexample): Python truthiness breaks the stated scope
exclusivity.  With `h3_cell = ""` (provided, but empty) and
`location_name = "Lund"` both provided, `query_events` raises no error at
all — it answers the location-scoped query; and with only `h3_cell = ""`
provided (exactly one scope), it raises the "must specify either" error
anyway. -/
theorem scope_exclusivity_truthiness_counterexample :
    (query_events fts0 db2 (some "") (some "Lund") none none none none none 1 50).map
      (fun r => r.total) = .ok 2 ∧
    query_events fts0 db2 (some "") none none none none none none 1 50
      = .error .noScope := by
  refine ⟨by decide, by decide⟩

/-- C6 (amended): `query_events` raises the "both scopes" `ValueError`
exactly when both `h3_cell` and `location_name` are truthy (provided and
non-empty), and the "no scope" `ValueError` exactly when neither is
truthy — `None` and the empty string count as absent; with exactly one
truthy scope neither scope error is raised, for every combination of the
other parameters. -/
theorem scope_exclusivity_truthy :
    ∀ (ftsm : String → Event → Bool) (db : List Event)
      (h3_cell location_name : Option String) (start_date end_date : Option Date)
      (categories types : Option (List String)) (search : Option String)
      (page per_page : Nat),
      (query_events ftsm db h3_cell location_name start_date end_date
          categories types search page per_page = .error .bothScopes
        ↔ optStrTruthy h3_cell = true ∧ optStrTruthy location_name = true) ∧
      (query_events ftsm db h3_cell location_name start_date end_date
          categories types search page per_page = .error .noScope
        ↔ optStrTruthy h3_cell = false ∧ optStrTruthy location_name = false) := by
  intro ftsm db h3_cell location_name start_date end_date categories types search page per_page
  unfold query_events
  cases hh : optStrTruthy h3_cell <;> cases hl : optStrTruthy location_name <;>
    simp [hh, hl] <;> split <;> simp

/-! ## Claim C7 -/

/-- C7 (counterexample): `"0123456789abcde\n"` is not a string of exactly
15 hexadecimal characters (it has 16 characters), yet — because Python's
`$` also matches just before a trailing newline — `is_valid_h3_cell`
accepts it and `query_events` raises no caller error, answering the query
normally. -/
theorem h3_format_trailing_newline_counterexample :
    ("0123456789abcde\n".data.length = 16) ∧
    is_valid_h3_cell "0123456789abcde\n" = true ∧
    query_events fts0 db2 (some "0123456789abcde\n") none none none none none none 1 50
      = .ok (QueryResult.mk 0 1 50 []) := by
  refine ⟨by decide, by decide, by decide⟩

/-- C7 (amended): `is_valid_h3_cell` accepts exactly the strings of 15
hexadecimal characters, optionally followed by one trailing newline; when
the grid-cell scope is used, any other non-empty `h3_cell` makes
`query_events` raise the invalid-cell `ValueError` before any data access
(for every database and filter combination), while an accepted cell id
matching no data row yields `total = 0` with an empty `events` list and
no error. -/
theorem h3_cell_format_validation :
    (∀ s : String, is_valid_h3_cell s = true ↔
      ((s.data.length = 15 ∧ ∀ c ∈ s.data, isHexChar c = true) ∨
       (s.data.length = 16 ∧ (∀ c ∈ s.data.take 15, isHexChar c = true) ∧
         s.data.getLast? = some (Char.ofNat 10)))) ∧
    (∀ (ftsm : String → Event → Bool) (db : List Event) (cell : String)
        (start_date end_date : Option Date) (categories types : Option (List String))
        (search : Option String) (page per_page : Nat),
      cell ≠ "" → is_valid_h3_cell cell = false →
      query_events ftsm db (some cell) none start_date end_date
        categories types search page per_page = .error (.invalidH3 cell)) ∧
    (∀ (ftsm : String → Event → Bool) (db : List Event) (cell : String)
        (page per_page : Nat),
      cell ≠ "" → is_valid_h3_cell cell = true →
      (∀ e ∈ db, e.h3_cell ≠ cell) →
      query_events ftsm db (some cell) none none none none none none page per_page
        = .ok (QueryResult.mk 0 page per_page [])) := by
  refine ⟨?_, ?_, ?_⟩
  · intro s
    simp only [is_valid_h3_cell, List.all_eq_true, Bool.or_eq_true, Bool.and_eq_true,
      beq_iff_eq]
    tauto
  · intro ftsm db cell start_date end_date categories types search page per_page hne hv
    have ht : optStrTruthy (some cell) = true := by
      simp [optStrTruthy, hne]
    unfold query_events
    rw [if_neg (by simp [ht, optStrTruthy]), if_neg (by simp [ht]),
      if_pos (by simp [ht, Option.getD, hv])]
    rfl
  · intro ftsm db cell page per_page hne hv hnomatch
    have ht : optStrTruthy (some cell) = true := by
      simp [optStrTruthy, hne]
    unfold query_events
    rw [if_neg (by simp [ht, optStrTruthy]), if_neg (by simp [ht]),
      if_neg (by simp [ht, Option.getD, hv])]
    have hfilter : db.filter
        (where_keep ftsm (some cell) none none none none none none) = [] := by
      rw [List.filter_eq_nil_iff]
      intro e he
      have hcell : (e.h3_cell == cell) = false :=
        beq_eq_false_iff_ne.mpr (hnomatch e he)
      simp [where_keep, scope_cond, ht, Option.getD, hcell]
    simp [run_query, hfilter, List.insertionSort]

/-- C7 (witness): the amended validation applied at concrete inputs — a
malformed cell id is rejected against a concrete database, and the
well-formed `cellA` with no matching rows yields the empty result. -/
theorem h3_cell_format_validation_witness :
    query_events fts0 db2 (some "xyz") none none none none none none 1 50
      = .error (.invalidH3 "xyz") ∧
    query_events fts0 [] (some cellA) none none none none none none 1 50
      = .ok (QueryResult.mk 0 1 50 []) := by
  constructor
  · exact h3_cell_format_validation.2.1 fts0 db2 "xyz" none none none none none 1 50
      (by decide) (by decide)
  · exact h3_cell_format_validation.2.2 fts0 [] cellA 1 50 (by decide) (by decide)
      (by intro e he; cases he)

/-! ## Claim C8 -/

/-- The date-range filter as the claim states it: inclusive start,
exclusive end — an event is kept only when its timestamp lies strictly
before the end date (before that date's midnight). -/
def spec_date_range_keep (sd ed : Date) (e : Event) : Bool :=
  strLeb sd.isoformat e.datetime && strLtb e.datetime ed.isoformat

/-- An event timestamped noon on the end date. -/
def e8 : Event := mkEv 1 "2024-01-17 12:00:00" cellA

/-- C8 (counterexample): with `start_date = 2024-01-16` and
`end_date = 2024-01-17`, an event timestamped `2024-01-17 12:00:00` — on
the end date, hence excluded by the claim's `t < end_date` — is kept by
`query_events`, because the code's end bound is
`end_date.isoformat() + "T23:59:59"` on the same day
(`queries.py:86-89`), not the end date's midnight. -/
theorem date_range_exclusive_end_counterexample :
    spec_date_range_keep (Date.mk 2024 1 16) (Date.mk 2024 1 17) e8 = false ∧
    (query_events fts0 [e8] (some cellA) none
        (some (Date.mk 2024 1 16)) (some (Date.mk 2024 1 17)) none none none 1 50).map
      (fun r => (r.total, r.events.map (fun v => v.event_id)))
      = .ok (1, ["e1"]) := by
  refine ⟨by decide, by decide⟩

/-- C8 (amended): when both dates are given, the filter keeps exactly the
events whose stored timestamp `t` satisfies
`start_date.isoformat() <= t` and `t < end_date.isoformat() + "T23:59:59"`
under string comparison, combined by AND with every other active filter;
the start bound admits every timestamp on the start date (inclusive
start), and — since stored timestamps use a space separator, which
compares below `"T"` — every event timestamped on the end date also
passes the end bound: the end date is effectively inclusive, not
exclusive. -/
theorem date_range_filter_semantics :
    (∀ (ftsm : String → Event → Bool) (db : List Event)
        (h3_cell location_name : Option String) (sd ed : Date)
        (categories types : Option (List String)) (search : Option String)
        (page per_page : Nat) (r : QueryResult),
      query_events ftsm db h3_cell location_name (some sd) (some ed)
          categories types search page per_page = .ok r →
      r.total = (db.filter (fun e =>
        scope_cond h3_cell location_name e &&
        strLeb sd.isoformat e.datetime &&
        strLtb e.datetime (ed.isoformat ++ "T23:59:59") &&
        cat_cond categories e && type_cond types e &&
        fts_cond ftsm search e)).length) ∧
    (∀ (d : Date) (rest : String) (e : Event),
      e.datetime = d.isoformat ++ " " ++ rest → end_cond (some d) e = true) ∧
    (∀ (d : Date) (rest : String) (e : Event),
      e.datetime = d.isoformat ++ rest → start_cond (some d) e = true) := by
  refine ⟨?_, end_cond_of_same_date, start_cond_of_same_date⟩
  intro ftsm db h3_cell location_name sd ed categories types search page per_page r h
  rw [query_events_ok_inv ftsm db h3_cell location_name (some sd) (some ed)
    categories types search page per_page r h]
  rfl

/-- Result of the C8 witness query: one event timestamped on the end
date. -/
def r8val : QueryResult :=
  run_query (where_keep fts0 (some cellA) none
    (some (Date.mk 2024 1 16)) (some (Date.mk 2024 1 17)) none none none) [e8] 1 50

/-- C8 (witness): the amended semantics applied at concrete inputs. -/
theorem date_range_filter_semantics_witness :
    r8val.total = ([e8].filter (fun e =>
      scope_cond (some cellA) none e &&
      strLeb (Date.isoformat (Date.mk 2024 1 16)) e.datetime &&
      strLtb e.datetime (Date.isoformat (Date.mk 2024 1 17) ++ "T23:59:59") &&
      cat_cond none e && type_cond none e && fts_cond fts0 none e)).length ∧
    end_cond (some (Date.mk 2024 1 17)) e8 = true ∧
    start_cond (some (Date.mk 2024 1 16)) (mkEv 3 "2024-01-16 08:00:00" cellA) = true := by
  refine ⟨?_, ?_, ?_⟩
  · exact date_range_filter_semantics.1 fts0 [e8] (some cellA) none
      (Date.mk 2024 1 16) (Date.mk 2024 1 17) none none none 1 50 r8val rfl
  · exact date_range_filter_semantics.2.1 (Date.mk 2024 1 17) "12:00:00" e8 (by decide)
  · exact date_range_filter_semantics.2.2 (Date.mk 2024 1 16) " 08:00:00"
      (mkEv 3 "2024-01-16 08:00:00" cellA) (by decide)

/-! ## Claim C10 -/

/-- C10: a categories filter whose entries are only `other` or names
absent from `CATEGORY_TYPES` contributes no filter condition at all — the
query result (total and events alike) is identical to the same query with
no categories filter. -/
theorem unknown_categories_filter_noop :
    ∀ (ftsm : String → Event → Bool) (db : List Event)
      (h3_cell location_name : Option String) (start_date end_date : Option Date)
      (cats : List String) (types : Option (List String)) (search : Option String)
      (page per_page : Nat),
      (∀ c ∈ cats, List.lookup c CATEGORY_TYPES = none) →
      query_events ftsm db h3_cell location_name start_date end_date
          (some cats) types search page per_page
        = query_events ftsm db h3_cell location_name start_date end_date
          none types search page per_page := by
  intro ftsm db h3_cell location_name start_date end_date cats types search page per_page h
  have hnil := allowed_types_eq_nil cats h
  have hc : cat_cond (some cats) = cat_cond none := by
    funext e
    cases hcse : cats.isEmpty <;> simp [cat_cond, optListTruthy, hcse, hnil]
  have hk : where_keep ftsm h3_cell location_name start_date end_date (some cats) types search
      = where_keep ftsm h3_cell location_name start_date end_date none types search := by
    funext e
    unfold where_keep
    rw [hc]
  unfold query_events
  rw [hk]

/-- C10 (witness): a categories filter of `["other", "bogus"]` leaves the
query result unchanged on a concrete database. -/
theorem unknown_categories_filter_noop_witness :
    query_events fts0 db2 (some cellA) none none none
        (some ["other", "bogus"]) none none 1 50
      = query_events fts0 db2 (some cellA) none none none none none none 1 50 :=
  unknown_categories_filter_noop fts0 db2 (some cellA) none none none
    ["other", "bogus"] none none 1 50 (by decide)

/-! ## Claim C5 -/

/-- The page slice's event ids are a window of the sorted matching ids. -/
theorem run_query_events_ids (keep : Event → Bool) (db : List Event) (page pp : Nat) :
    (run_query keep db page pp).events.map EventResponse.event_id
      = (((List.insertionSort datetime_desc (db.filter keep)).map Event.event_id).drop
          ((page - 1) * pp)).take pp := by
  simp only [run_query]
  rw [List.map_map]
  have hcomp : EventResponse.event_id ∘ toResponse = Event.event_id := rfl
  rw [hcomp, List.map_take, List.map_drop]

/-- The reported total is the full matching count, independent of the
page. -/
theorem run_query_total (keep : Event → Bool) (db : List Event) (page pp : Nat) :
    (run_query keep db page pp).total = (db.filter keep).length := rfl

/-- C5: pagination is 1-indexed with `per_page` bounded to 100 at the API
boundary (an out-of-bound `per_page` fails the FastAPI validation): for
any fixed scope and filters, pages 1 and 2 at `per_page = 10` return
disjoint event-id sets (given the database's unique event ids, stated for
the claim's `total > 10` case), and any page starting at or beyond the
end of the results returns `events = []` with `total` identical to the
value reported for page 1. -/
theorem pagination_one_indexed_bounded :
    (∀ pp : Nat, 100 < pp → get_events_per_page_ok pp = false) ∧
    (∀ (ftsm : String → Event → Bool) (db : List Event)
        (h3_cell location_name : Option String) (start_date end_date : Option Date)
        (categories types : Option (List String)) (search : Option String)
        (r1 r2 : QueryResult),
      (db.map Event.event_id).Nodup →
      query_events ftsm db h3_cell location_name start_date end_date
          categories types search 1 10 = .ok r1 →
      query_events ftsm db h3_cell location_name start_date end_date
          categories types search 2 10 = .ok r2 →
      10 < r1.total →
      ∀ i, i ∈ r1.events.map EventResponse.event_id →
        i ∉ r2.events.map EventResponse.event_id) ∧
    (∀ (ftsm : String → Event → Bool) (db : List Event)
        (h3_cell location_name : Option String) (start_date end_date : Option Date)
        (categories types : Option (List String)) (search : Option String)
        (r1 rp : QueryResult) (p : Nat),
      query_events ftsm db h3_cell location_name start_date end_date
          categories types search 1 10 = .ok r1 →
      query_events ftsm db h3_cell location_name start_date end_date
          categories types search p 10 = .ok rp →
      r1.total ≤ (p - 1) * 10 →
      rp.events = [] ∧ rp.total = r1.total) := by
  refine ⟨?_, ?_, ?_⟩
  · intro pp h
    have h2 : ¬ (pp ≤ 100) := by omega
    simp [get_events_per_page_ok, h2]
  · intro ftsm db h3_cell location_name start_date end_date categories types search
      r1 r2 hnd h1 h2 htot i hi1 hi2
    have e1 := query_events_ok_inv ftsm db h3_cell location_name start_date end_date
      categories types search 1 10 r1 h1
    have e2 := query_events_ok_inv ftsm db h3_cell location_name start_date end_date
      categories types search 2 10 r2 h2
    rw [e1, run_query_events_ids] at hi1
    rw [e2, run_query_events_ids] at hi2
    have hmnd : (((db.filter (where_keep ftsm h3_cell location_name start_date end_date
        categories types search)).map Event.event_id)).Nodup :=
      List.Sublist.nodup ((List.filter_sublist db).map Event.event_id) hnd
    have hperm := List.perm_insertionSort datetime_desc
      (db.filter (where_keep ftsm h3_cell location_name start_date end_date
        categories types search))
    have hsnd : (((List.insertionSort datetime_desc
        (db.filter (where_keep ftsm h3_cell location_name start_date end_date
          categories types search))).map Event.event_id)).Nodup :=
      (hperm.symm.map Event.event_id).nodup hmnd
    have hdisj := List.disjoint_take_drop (m := 10) (n := 10) hsnd (le_refl 10)
    have hi1' : i ∈ (((List.insertionSort datetime_desc
        (db.filter (where_keep ftsm h3_cell location_name start_date end_date
          categories types search))).map Event.event_id)).take 10 := by
      simpa using hi1
    have hi2' : i ∈ (((List.insertionSort datetime_desc
        (db.filter (where_keep ftsm h3_cell location_name start_date end_date
          categories types search))).map Event.event_id)).drop 10 := by
      have := List.take_subset 10 _ hi2
      simpa using this
    exact hdisj hi1' hi2'
  · intro ftsm db h3_cell location_name start_date end_date categories types search
      r1 rp p h1 hp hle
    have e1 := query_events_ok_inv ftsm db h3_cell location_name start_date end_date
      categories types search 1 10 r1 h1
    have ep := query_events_ok_inv ftsm db h3_cell location_name start_date end_date
      categories types search p 10 rp hp
    rw [e1, run_query_total] at hle
    have hperm := List.perm_insertionSort datetime_desc
      (db.filter (where_keep ftsm h3_cell location_name start_date end_date
        categories types search))
    have hlen : (List.insertionSort datetime_desc
        (db.filter (where_keep ftsm h3_cell location_name start_date end_date
          categories types search))).length ≤ (p - 1) * 10 := by
      rw [hperm.length_eq]
      exact hle
    constructor
    · rw [ep]
      simp only [run_query]
      rw [List.drop_eq_nil_of_le hlen]
      rfl
    · rw [ep, e1]
      rfl

/-- Twelve events with unique ids in `cellA`, timestamps descending with
the id index. -/
def db12 : List Event :=
  (List.range 12).map (fun i => mkEv (i + 1) ("2024-01-" ++ pad2 (24 - i) ++ " 10:00:00") cellA)

/-- Page-1 result over `db12`. -/
def r51 : QueryResult :=
  run_query (where_keep fts0 (some cellA) none none none none none none) db12 1 10

/-- Page-2 result over `db12`. -/
def r52 : QueryResult :=
  run_query (where_keep fts0 (some cellA) none none none none none none) db12 2 10

/-- Page-3 (past-the-end) result over `db12`. -/
def r53 : QueryResult :=
  run_query (where_keep fts0 (some cellA) none none none none none none) db12 3 10

/-- C5 (witness): the pagination properties applied at concrete inputs —
`per_page = 200` fails validation; id `"e1"` from page 1 is absent from
page 2; page 3 of a 12-event result is empty with the page-1 total. -/
theorem pagination_one_indexed_bounded_witness :
    get_events_per_page_ok 200 = false ∧
    "e1" ∉ r52.events.map EventResponse.event_id ∧
    (r53.events = [] ∧ r53.total = r51.total) := by
  refine ⟨pagination_one_indexed_bounded.1 200 (by decide), ?_, ?_⟩
  · exact pagination_one_indexed_bounded.2.1 fts0 db12 (some cellA) none none none
      none none none r51 r52 (by decide) rfl rfl (by decide) "e1" (by decide)
  · exact pagination_one_indexed_bounded.2.2 fts0 db12 (some cellA) none none none
      none none none r51 r53 3 rfl rfl (by decide)

/-! ## Claim C4 -/

/-- On a transformation failure, the shared pipeline body re-raises a
wrapped error carrying the original cause, removes the temporary output,
and leaves the previously published output untouched. -/
theorem run_pipeline_fail (msg : String) (fs : FS) (out cause : String)
    (lo : Option Nat) (hne : with_suffix out ".tmp" ≠ out) :
    (run_pipeline msg fs out (.error cause) lo).result
        = .error (.runtimeError (msg ++ cause)) ∧
    fsGet (run_pipeline msg fs out (.error cause) lo).fs (with_suffix out ".tmp") = none ∧
    fsGet (run_pipeline msg fs out (.error cause) lo).fs out = fsGet fs out := by
  have hne2 : out ≠ with_suffix out ".tmp" := Ne.symm hne
  unfold run_pipeline
  cases lo with
  | some b =>
    simp only []
    rw [fsGet_fsSet_self]
    simp only [Option.isSome_some, if_true]
    exact ⟨by trivial, fsGet_fsDel_self _ _,
      by rw [fsGet_fsDel_other _ _ _ hne2, fsGet_fsSet_other _ _ _ _ hne2]⟩
  | none =>
    simp only []
    cases ht : fsGet fs (with_suffix out ".tmp") with
    | some b =>
      simp only [Option.isSome_some, if_true]
      exact ⟨by trivial, fsGet_fsDel_self _ _, by rw [fsGet_fsDel_other _ _ _ hne2]⟩
    | none =>
      simp only [Option.isSome_none, Bool.false_eq_true, if_false]
      exact ⟨by trivial, ht, by trivial⟩

/-- On success, the shared pipeline body publishes the transformed blob
onto the output path by renaming the temporary file, which therefore no
longer exists. -/
theorem run_pipeline_ok (msg : String) (fs : FS) (out : String) (blob : Nat)
    (lo : Option Nat) (hne : with_suffix out ".tmp" ≠ out) :
    (run_pipeline msg fs out (.ok blob) lo).result = .ok () ∧
    fsGet (run_pipeline msg fs out (.ok blob) lo).fs out = some blob ∧
    fsGet (run_pipeline msg fs out (.ok blob) lo).fs (with_suffix out ".tmp") = none := by
  have hne2 : out ≠ with_suffix out ".tmp" := Ne.symm hne
  unfold run_pipeline
  exact ⟨rfl, fsGet_fsSet_self _ _ _,
    by rw [fsGet_fsSet_other _ _ _ _ hne, fsGet_fsDel_self]⟩

/-- C4: for both aggregation entry points — a missing input file raises
`FileNotFoundError` before any write (the filesystem is returned exactly
as it was); any failure during transformation removes the temporary
output file, leaves the previously published output unchanged, and raises
a `RuntimeError` wrapping the original cause; and on success the
temporary file is renamed onto the output path (the new blob is published
and the temporary file is gone). -/
theorem aggregation_atomic_publish :
    (∀ (fs : FS) (ev pop out : String) (tr : Except String Nat) (lo : Option Nat),
      fsGet fs ev = none →
      aggregate_events_to_h3 fs ev pop out tr lo
          = AggOutcome.mk (.error (.fileNotFound ("Events file not found: " ++ ev))) fs ∧
      aggregate_events_to_municipalities fs ev pop out tr lo
          = AggOutcome.mk (.error (.fileNotFound ("Events file not found: " ++ ev))) fs) ∧
    (∀ (fs : FS) (ev pop out : String) (tr : Except String Nat) (lo : Option Nat) (b : Nat),
      fsGet fs ev = some b → fsGet fs pop = none →
      aggregate_events_to_h3 fs ev pop out tr lo
          = AggOutcome.mk (.error (.fileNotFound ("Population file not found: " ++ pop))) fs ∧
      aggregate_events_to_municipalities fs ev pop out tr lo
          = AggOutcome.mk (.error (.fileNotFound ("Population file not found: " ++ pop))) fs) ∧
    (∀ (fs : FS) (ev pop out cause : String) (lo : Option Nat) (b1 b2 : Nat),
      fsGet fs ev = some b1 → fsGet fs pop = some b2 → with_suffix out ".tmp" ≠ out →
      ((aggregate_events_to_h3 fs ev pop out (.error cause) lo).result
          = .error (.runtimeError ("Failed to aggregate events to H3: " ++ cause)) ∧
        fsGet (aggregate_events_to_h3 fs ev pop out (.error cause) lo).fs
            (with_suffix out ".tmp") = none ∧
        fsGet (aggregate_events_to_h3 fs ev pop out (.error cause) lo).fs out
            = fsGet fs out) ∧
      ((aggregate_events_to_municipalities fs ev pop out (.error cause) lo).result
          = .error (.runtimeError
            ("Failed to aggregate events to municipalities: " ++ cause)) ∧
        fsGet (aggregate_events_to_municipalities fs ev pop out (.error cause) lo).fs
            (with_suffix out ".tmp") = none ∧
        fsGet (aggregate_events_to_municipalities fs ev pop out (.error cause) lo).fs out
            = fsGet fs out)) ∧
    (∀ (fs : FS) (ev pop out : String) (blob : Nat) (lo : Option Nat) (b1 b2 : Nat),
      fsGet fs ev = some b1 → fsGet fs pop = some b2 → with_suffix out ".tmp" ≠ out →
      ((aggregate_events_to_h3 fs ev pop out (.ok blob) lo).result = .ok () ∧
        fsGet (aggregate_events_to_h3 fs ev pop out (.ok blob) lo).fs out = some blob ∧
        fsGet (aggregate_events_to_h3 fs ev pop out (.ok blob) lo).fs
            (with_suffix out ".tmp") = none) ∧
      ((aggregate_events_to_municipalities fs ev pop out (.ok blob) lo).result = .ok () ∧
        fsGet (aggregate_events_to_municipalities fs ev pop out (.ok blob) lo).fs out
            = some blob ∧
        fsGet (aggregate_events_to_municipalities fs ev pop out (.ok blob) lo).fs
            (with_suffix out ".tmp") = none)) := by
  refine ⟨?_, ?_, ?_, ?_⟩
  · intro fs ev pop out tr lo h
    constructor
    · unfold aggregate_events_to_h3
      rw [if_pos (by simp [h])]
    · unfold aggregate_events_to_municipalities
      rw [if_pos (by simp [h])]
  · intro fs ev pop out tr lo b h1 h2
    constructor
    · unfold aggregate_events_to_h3
      rw [if_neg (by simp [h1]), if_pos (by simp [h2])]
    · unfold aggregate_events_to_municipalities
      rw [if_neg (by simp [h1]), if_pos (by simp [h2])]
  · intro fs ev pop out cause lo b1 b2 h1 h2 hne
    constructor
    · have hrw : aggregate_events_to_h3 fs ev pop out (.error cause) lo
          = run_pipeline "Failed to aggregate events to H3: " fs out (.error cause) lo := by
        unfold aggregate_events_to_h3
        rw [if_neg (by simp [h1]), if_neg (by simp [h2])]
      rw [hrw]
      exact run_pipeline_fail _ fs out cause lo hne
    · have hrw : aggregate_events_to_municipalities fs ev pop out (.error cause) lo
          = run_pipeline "Failed to aggregate events to municipalities: " fs out
            (.error cause) lo := by
        unfold aggregate_events_to_municipalities
        rw [if_neg (by simp [h1]), if_neg (by simp [h2])]
      rw [hrw]
      exact run_pipeline_fail _ fs out cause lo hne
  · intro fs ev pop out blob lo b1 b2 h1 h2 hne
    constructor
    · have hrw : aggregate_events_to_h3 fs ev pop out (.ok blob) lo
          = run_pipeline "Failed to aggregate events to H3: " fs out (.ok blob) lo := by
        unfold aggregate_events_to_h3
        rw [if_neg (by simp [h1]), if_neg (by simp [h2])]
      rw [hrw]
      exact run_pipeline_ok _ fs out blob lo hne
    · have hrw : aggregate_events_to_municipalities fs ev pop out (.ok blob) lo
          = run_pipeline "Failed to aggregate events to municipalities: " fs out
            (.ok blob) lo := by
        unfold aggregate_events_to_municipalities
        rw [if_neg (by simp [h1]), if_neg (by simp [h2])]
      rw [hrw]
      exact run_pipeline_ok _ fs out blob lo hne

/-- A concrete filesystem with both inputs and a previously published
output. -/
def fs0 : FS := [("events.parquet", 1), ("population.parquet", 2), ("events_r5.parquet", 7)]

/-- C4 (witness): the atomic-publish behaviors applied at concrete inputs:
a missing events file fails fast leaving an empty filesystem untouched; a
failed transform over `fs0` wraps the cause, removes `events_r5.tmp`, and
keeps the old published blob `7`; a successful transform publishes blob
`9` with no temporary left. -/
theorem aggregation_atomic_publish_witness :
    aggregate_events_to_h3 [] "events.parquet" "population.parquet" "events_r5.parquet"
        (.ok 9) none
      = AggOutcome.mk (.error (.fileNotFound "Events file not found: events.parquet")) [] ∧
    ((aggregate_events_to_h3 fs0 "events.parquet" "population.parquet" "events_r5.parquet"
          (.error "boom") (some 4)).result
        = .error (.runtimeError "Failed to aggregate events to H3: boom") ∧
      fsGet (aggregate_events_to_h3 fs0 "events.parquet" "population.parquet"
          "events_r5.parquet" (.error "boom") (some 4)).fs "events_r5.tmp" = none ∧
      fsGet (aggregate_events_to_h3 fs0 "events.parquet" "population.parquet"
          "events_r5.parquet" (.error "boom") (some 4)).fs "events_r5.parquet" = some 7) ∧
    ((aggregate_events_to_municipalities fs0 "events.parquet" "population.parquet"
          "events_r5.parquet" (.ok 9) none).result = .ok () ∧
      fsGet (aggregate_events_to_municipalities fs0 "events.parquet" "population.parquet"
          "events_r5.parquet" (.ok 9) none).fs "events_r5.parquet" = some 9) := by
  refine ⟨?_, ?_, ?_⟩
  · exact (aggregation_atomic_publish.1 [] "events.parquet" "population.parquet"
      "events_r5.parquet" (.ok 9) none (by decide)).1
  · have h := (aggregation_atomic_publish.2.2.1 fs0 "events.parquet" "population.parquet"
      "events_r5.parquet" "boom" (some 4) 1 2 (by decide) (by decide) (by decide)).1
    exact ⟨h.1, by
      have := h.2.1
      simpa using this, by
      have := h.2.2
      simpa using this⟩
  · have h := (aggregation_atomic_publish.2.2.2 fs0 "events.parquet" "population.parquet"
      "events_r5.parquet" 9 none 1 2 (by decide) (by decide) (by decide)).2
    exact ⟨h.1, h.2.1⟩

/-! ## Claim C9 -/

/-- A parsed category-mapping TOML exhibiting all three structural
defects of the claim at once: the type label `Stöld` appears under two
categories, `weapons` has an empty type list, and only 3 of the 8
categories are present. -/
def defective_mapping : List (String × Toml) :=
  [ ("categories", .table
      [ ("traffic", .table [("name", .str "Trafik"), ("types", .arr [.str "Stöld"])]),
        ("property", .table
          [("name", .str "Egendomsbrott"), ("types", .arr [.str "Stöld"])]),
        ("weapons", .table [("name", .str "Vapen"), ("types", .arr [])]) ]) ]

/-- C9 (counterexample): `CategoryMapping.from_file` accepts — without
any configuration error — a mapping with a duplicate type label across
categories, a category with no types, and missing categories: the
Pydantic validation of `config.py:79-111` checks only field shapes, and
`_load_event_types` (`event_types.py:63-70`) checks nothing at all. -/
theorem load_time_validation_counterexample :
    CategoryMapping_from_file true (.ok defective_mapping)
      = .ok (CategoryMapping.mk
          [ ("traffic", Category.mk "Trafik" ["Stöld"]),
            ("property", Category.mk "Egendomsbrott" ["Stöld"]),
            ("weapons", Category.mk "Vapen" []) ]) := by
  decide

/-- C9 (amended): loading the category mapping rejects, at load time, a
missing file, invalid TOML syntax, and schema-shape defects (a missing
`categories` table, or an entry whose `name` is not a string or whose
`types` is not a list of strings) by raising `CategoryMappingError`; but
it does NOT reject duplicate type labels across categories, categories
with no types, or missing categories — such mappings load successfully
(any two categories sharing an arbitrary label are accepted), and those
defects are guarded only by the repository's tests on the shipped file,
not by the loader. -/
theorem load_time_validation_shape_only :
    (∀ parsed : Except String (List (String × Toml)),
      CategoryMapping_from_file false parsed = .error .notFound) ∧
    (∀ msg : String,
      CategoryMapping_from_file true (.error msg) = .error (.invalidToml msg)) ∧
    (CategoryMapping_from_toml [] = .error .invalidStructure) ∧
    (CategoryMapping_from_toml
        [("categories", .table [("traffic", .table
          [("name", .str "Trafik"), ("types", .str "inte-en-lista")])])]
      = .error .invalidStructure) ∧
    (CategoryMapping_from_toml
        [("categories", .table [("traffic", .table [("types", .arr [])])])]
      = .error .invalidStructure) ∧
    (∀ t : String,
      CategoryMapping_from_toml
          [ ("categories", .table
              [ ("a", .table [("name", .str "A"), ("types", .arr [.str t])]),
                ("b", .table [("name", .str "B"), ("types", .arr [.str t])]) ]) ]
        = .ok (CategoryMapping.mk
            [("a", Category.mk "A" [t]), ("b", Category.mk "B" [t])])) ∧
    (CategoryMapping_from_toml
        [("categories", .table [("weapons", .table
          [("name", .str "Vapen"), ("types", .arr [])])])]
      = .ok (CategoryMapping.mk [("weapons", Category.mk "Vapen" [])])) := by
  refine ⟨fun parsed => rfl, fun msg => rfl, by decide, by decide, by decide, fun t => rfl,
    by decide⟩

/-- C2 (witness): the exact-match properties applied at concrete labels. -/
theorem get_category_total_exact_match_witness :
    ("Stöld", "property") ∈ type_assignments ∧
    get_category "Brand" ∈ get_all_categories ∧
    (get_category "okänd typ" = "other" ↔ TYPE_TO_CATEGORY_get "okänd typ" = none) := by
  refine ⟨?_, ?_, ?_⟩
  · exact get_category_total_exact_match.2.2.1 "Stöld" "property" (by decide)
  · exact get_category_total_exact_match.1 "Brand"
  · exact get_category_total_exact_match.2.1 "okänd typ"

/-- C6 (witness): the amended scope-exclusivity rule applied at concrete
inputs: two non-empty scopes raise the "both" error, no scope at all
raises the "neither" error. -/
theorem scope_exclusivity_truthy_witness :
    query_events fts0 db2 (some cellA) (some "Lund") none none none none none 1 50
      = .error .bothScopes ∧
    query_events fts0 db2 none none none none none none none 1 50
      = .error .noScope := by
  constructor
  · exact (scope_exclusivity_truthy fts0 db2 (some cellA) (some "Lund") none none
      none none none 1 50).1.mpr ⟨by decide, by decide⟩
  · exact (scope_exclusivity_truthy fts0 db2 none none none none
      none none none 1 50).2.mpr ⟨rfl, rfl⟩
